/-
Verification of the summer-internship-scraper core: the job-offer data model
and content fingerprint (`models/offers.py`), the markdown renderer
(`utils/markdown_export.py`), and the deduplicating job repository used by
`scraper.py`.

The fingerprint in `JobOffer.get_hash` is `hashlib.md5` over the UTF-8 bytes
of the concatenated company name, title and location, rendered as a lowercase
hex digest. MD5 is embedded here as an executable pure function on byte lists,
validated against the RFC 1321 test vectors.
-/
import Mathlib

set_option maxRecDepth 100000
set_option maxHeartbeats 8000000

/-- One application of the MD5 compression function (RFC 1321), with the 64
rounds unrolled. `blk` is one 512-bit message block packed little-endian into
a natural number, `a0 b0 c0 d0` the incoming chaining state; all words are
32-bit values represented as naturals reduced mod 2 ^ 32. -/
def md5Comp (blk : Nat) (a0 b0 c0 d0 : Nat) : Nat × Nat × Nat × Nat :=
  let m0 := blk % 4294967296
  let m1 := (blk >>> 32) % 4294967296
  let m2 := (blk >>> 64) % 4294967296
  let m3 := (blk >>> 96) % 4294967296
  let m4 := (blk >>> 128) % 4294967296
  let m5 := (blk >>> 160) % 4294967296
  let m6 := (blk >>> 192) % 4294967296
  let m7 := (blk >>> 224) % 4294967296
  let m8 := (blk >>> 256) % 4294967296
  let m9 := (blk >>> 288) % 4294967296
  let m10 := (blk >>> 320) % 4294967296
  let m11 := (blk >>> 352) % 4294967296
  let m12 := (blk >>> 384) % 4294967296
  let m13 := (blk >>> 416) % 4294967296
  let m14 := (blk >>> 448) % 4294967296
  let m15 := (blk >>> 480) % 4294967296
  let t0 := (((b0 &&& c0) ||| ((b0 ^^^ 4294967295) &&& d0)) + a0 + 3614090360 + m0) % 4294967296
  let r0 := (b0 + (((t0 <<< 7) % 4294967296) ||| (t0 >>> 25))) % 4294967296
  let t1 := (((r0 &&& b0) ||| ((r0 ^^^ 4294967295) &&& c0)) + d0 + 3905402710 + m1) % 4294967296
  let r1 := (r0 + (((t1 <<< 12) % 4294967296) ||| (t1 >>> 20))) % 4294967296
  let t2 := (((r1 &&& r0) ||| ((r1 ^^^ 4294967295) &&& b0)) + c0 + 606105819 + m2) % 4294967296
  let r2 := (r1 + (((t2 <<< 17) % 4294967296) ||| (t2 >>> 15))) % 4294967296
  let t3 := (((r2 &&& r1) ||| ((r2 ^^^ 4294967295) &&& r0)) + b0 + 3250441966 + m3) % 4294967296
  let r3 := (r2 + (((t3 <<< 22) % 4294967296) ||| (t3 >>> 10))) % 4294967296
  let t4 := (((r3 &&& r2) ||| ((r3 ^^^ 4294967295) &&& r1)) + r0 + 4118548399 + m4) % 4294967296
  let r4 := (r3 + (((t4 <<< 7) % 4294967296) ||| (t4 >>> 25))) % 4294967296
  let t5 := (((r4 &&& r3) ||| ((r4 ^^^ 4294967295) &&& r2)) + r1 + 1200080426 + m5) % 4294967296
  let r5 := (r4 + (((t5 <<< 12) % 4294967296) ||| (t5 >>> 20))) % 4294967296
  let t6 := (((r5 &&& r4) ||| ((r5 ^^^ 4294967295) &&& r3)) + r2 + 2821735955 + m6) % 4294967296
  let r6 := (r5 + (((t6 <<< 17) % 4294967296) ||| (t6 >>> 15))) % 4294967296
  let t7 := (((r6 &&& r5) ||| ((r6 ^^^ 4294967295) &&& r4)) + r3 + 4249261313 + m7) % 4294967296
  let r7 := (r6 + (((t7 <<< 22) % 4294967296) ||| (t7 >>> 10))) % 4294967296
  let t8 := (((r7 &&& r6) ||| ((r7 ^^^ 4294967295) &&& r5)) + r4 + 1770035416 + m8) % 4294967296
  let r8 := (r7 + (((t8 <<< 7) % 4294967296) ||| (t8 >>> 25))) % 4294967296
  let t9 := (((r8 &&& r7) ||| ((r8 ^^^ 4294967295) &&& r6)) + r5 + 2336552879 + m9) % 4294967296
  let r9 := (r8 + (((t9 <<< 12) % 4294967296) ||| (t9 >>> 20))) % 4294967296
  let t10 := (((r9 &&& r8) ||| ((r9 ^^^ 4294967295) &&& r7)) + r6 + 4294925233 + m10) % 4294967296
  let r10 := (r9 + (((t10 <<< 17) % 4294967296) ||| (t10 >>> 15))) % 4294967296
  let t11 := (((r10 &&& r9) ||| ((r10 ^^^ 4294967295) &&& r8)) + r7 + 2304563134 + m11) % 4294967296
  let r11 := (r10 + (((t11 <<< 22) % 4294967296) ||| (t11 >>> 10))) % 4294967296
  let t12 := (((r11 &&& r10) ||| ((r11 ^^^ 4294967295) &&& r9)) + r8 + 1804603682 + m12) % 4294967296
  let r12 := (r11 + (((t12 <<< 7) % 4294967296) ||| (t12 >>> 25))) % 4294967296
  let t13 := (((r12 &&& r11) ||| ((r12 ^^^ 4294967295) &&& r10)) + r9 + 4254626195 + m13) % 4294967296
  let r13 := (r12 + (((t13 <<< 12) % 4294967296) ||| (t13 >>> 20))) % 4294967296
  let t14 := (((r13 &&& r12) ||| ((r13 ^^^ 4294967295) &&& r11)) + r10 + 2792965006 + m14) % 4294967296
  let r14 := (r13 + (((t14 <<< 17) % 4294967296) ||| (t14 >>> 15))) % 4294967296
  let t15 := (((r14 &&& r13) ||| ((r14 ^^^ 4294967295) &&& r12)) + r11 + 1236535329 + m15) % 4294967296
  let r15 := (r14 + (((t15 <<< 22) % 4294967296) ||| (t15 >>> 10))) % 4294967296
  let t16 := (((r13 &&& r15) ||| ((r13 ^^^ 4294967295) &&& r14)) + r12 + 4129170786 + m1) % 4294967296
  let r16 := (r15 + (((t16 <<< 5) % 4294967296) ||| (t16 >>> 27))) % 4294967296
  let t17 := (((r14 &&& r16) ||| ((r14 ^^^ 4294967295) &&& r15)) + r13 + 3225465664 + m6) % 4294967296
  let r17 := (r16 + (((t17 <<< 9) % 4294967296) ||| (t17 >>> 23))) % 4294967296
  let t18 := (((r15 &&& r17) ||| ((r15 ^^^ 4294967295) &&& r16)) + r14 + 643717713 + m11) % 4294967296
  let r18 := (r17 + (((t18 <<< 14) % 4294967296) ||| (t18 >>> 18))) % 4294967296
  let t19 := (((r16 &&& r18) ||| ((r16 ^^^ 4294967295) &&& r17)) + r15 + 3921069994 + m0) % 4294967296
  let r19 := (r18 + (((t19 <<< 20) % 4294967296) ||| (t19 >>> 12))) % 4294967296
  let t20 := (((r17 &&& r19) ||| ((r17 ^^^ 4294967295) &&& r18)) + r16 + 3593408605 + m5) % 4294967296
  let r20 := (r19 + (((t20 <<< 5) % 4294967296) ||| (t20 >>> 27))) % 4294967296
  let t21 := (((r18 &&& r20) ||| ((r18 ^^^ 4294967295) &&& r19)) + r17 + 38016083 + m10) % 4294967296
  let r21 := (r20 + (((t21 <<< 9) % 4294967296) ||| (t21 >>> 23))) % 4294967296
  let t22 := (((r19 &&& r21) ||| ((r19 ^^^ 4294967295) &&& r20)) + r18 + 3634488961 + m15) % 4294967296
  let r22 := (r21 + (((t22 <<< 14) % 4294967296) ||| (t22 >>> 18))) % 4294967296
  let t23 := (((r20 &&& r22) ||| ((r20 ^^^ 4294967295) &&& r21)) + r19 + 3889429448 + m4) % 4294967296
  let r23 := (r22 + (((t23 <<< 20) % 4294967296) ||| (t23 >>> 12))) % 4294967296
  let t24 := (((r21 &&& r23) ||| ((r21 ^^^ 4294967295) &&& r22)) + r20 + 568446438 + m9) % 4294967296
  let r24 := (r23 + (((t24 <<< 5) % 4294967296) ||| (t24 >>> 27))) % 4294967296
  let t25 := (((r22 &&& r24) ||| ((r22 ^^^ 4294967295) &&& r23)) + r21 + 3275163606 + m14) % 4294967296
  let r25 := (r24 + (((t25 <<< 9) % 4294967296) ||| (t25 >>> 23))) % 4294967296
  let t26 := (((r23 &&& r25) ||| ((r23 ^^^ 4294967295) &&& r24)) + r22 + 4107603335 + m3) % 4294967296
  let r26 := (r25 + (((t26 <<< 14) % 4294967296) ||| (t26 >>> 18))) % 4294967296
  let t27 := (((r24 &&& r26) ||| ((r24 ^^^ 4294967295) &&& r25)) + r23 + 1163531501 + m8) % 4294967296
  let r27 := (r26 + (((t27 <<< 20) % 4294967296) ||| (t27 >>> 12))) % 4294967296
  let t28 := (((r25 &&& r27) ||| ((r25 ^^^ 4294967295) &&& r26)) + r24 + 2850285829 + m13) % 4294967296
  let r28 := (r27 + (((t28 <<< 5) % 4294967296) ||| (t28 >>> 27))) % 4294967296
  let t29 := (((r26 &&& r28) ||| ((r26 ^^^ 4294967295) &&& r27)) + r25 + 4243563512 + m2) % 4294967296
  let r29 := (r28 + (((t29 <<< 9) % 4294967296) ||| (t29 >>> 23))) % 4294967296
  let t30 := (((r27 &&& r29) ||| ((r27 ^^^ 4294967295) &&& r28)) + r26 + 1735328473 + m7) % 4294967296
  let r30 := (r29 + (((t30 <<< 14) % 4294967296) ||| (t30 >>> 18))) % 4294967296
  let t31 := (((r28 &&& r30) ||| ((r28 ^^^ 4294967295) &&& r29)) + r27 + 2368359562 + m12) % 4294967296
  let r31 := (r30 + (((t31 <<< 20) % 4294967296) ||| (t31 >>> 12))) % 4294967296
  let t32 := ((r31 ^^^ r30 ^^^ r29) + r28 + 4294588738 + m5) % 4294967296
  let r32 := (r31 + (((t32 <<< 4) % 4294967296) ||| (t32 >>> 28))) % 4294967296
  let t33 := ((r32 ^^^ r31 ^^^ r30) + r29 + 2272392833 + m8) % 4294967296
  let r33 := (r32 + (((t33 <<< 11) % 4294967296) ||| (t33 >>> 21))) % 4294967296
  let t34 := ((r33 ^^^ r32 ^^^ r31) + r30 + 1839030562 + m11) % 4294967296
  let r34 := (r33 + (((t34 <<< 16) % 4294967296) ||| (t34 >>> 16))) % 4294967296
  let t35 := ((r34 ^^^ r33 ^^^ r32) + r31 + 4259657740 + m14) % 4294967296
  let r35 := (r34 + (((t35 <<< 23) % 4294967296) ||| (t35 >>> 9))) % 4294967296
  let t36 := ((r35 ^^^ r34 ^^^ r33) + r32 + 2763975236 + m1) % 4294967296
  let r36 := (r35 + (((t36 <<< 4) % 4294967296) ||| (t36 >>> 28))) % 4294967296
  let t37 := ((r36 ^^^ r35 ^^^ r34) + r33 + 1272893353 + m4) % 4294967296
  let r37 := (r36 + (((t37 <<< 11) % 4294967296) ||| (t37 >>> 21))) % 4294967296
  let t38 := ((r37 ^^^ r36 ^^^ r35) + r34 + 4139469664 + m7) % 4294967296
  let r38 := (r37 + (((t38 <<< 16) % 4294967296) ||| (t38 >>> 16))) % 4294967296
  let t39 := ((r38 ^^^ r37 ^^^ r36) + r35 + 3200236656 + m10) % 4294967296
  let r39 := (r38 + (((t39 <<< 23) % 4294967296) ||| (t39 >>> 9))) % 4294967296
  let t40 := ((r39 ^^^ r38 ^^^ r37) + r36 + 681279174 + m13) % 4294967296
  let r40 := (r39 + (((t40 <<< 4) % 4294967296) ||| (t40 >>> 28))) % 4294967296
  let t41 := ((r40 ^^^ r39 ^^^ r38) + r37 + 3936430074 + m0) % 4294967296
  let r41 := (r40 + (((t41 <<< 11) % 4294967296) ||| (t41 >>> 21))) % 4294967296
  let t42 := ((r41 ^^^ r40 ^^^ r39) + r38 + 3572445317 + m3) % 4294967296
  let r42 := (r41 + (((t42 <<< 16) % 4294967296) ||| (t42 >>> 16))) % 4294967296
  let t43 := ((r42 ^^^ r41 ^^^ r40) + r39 + 76029189 + m6) % 4294967296
  let r43 := (r42 + (((t43 <<< 23) % 4294967296) ||| (t43 >>> 9))) % 4294967296
  let t44 := ((r43 ^^^ r42 ^^^ r41) + r40 + 3654602809 + m9) % 4294967296
  let r44 := (r43 + (((t44 <<< 4) % 4294967296) ||| (t44 >>> 28))) % 4294967296
  let t45 := ((r44 ^^^ r43 ^^^ r42) + r41 + 3873151461 + m12) % 4294967296
  let r45 := (r44 + (((t45 <<< 11) % 4294967296) ||| (t45 >>> 21))) % 4294967296
  let t46 := ((r45 ^^^ r44 ^^^ r43) + r42 + 530742520 + m15) % 4294967296
  let r46 := (r45 + (((t46 <<< 16) % 4294967296) ||| (t46 >>> 16))) % 4294967296
  let t47 := ((r46 ^^^ r45 ^^^ r44) + r43 + 3299628645 + m2) % 4294967296
  let r47 := (r46 + (((t47 <<< 23) % 4294967296) ||| (t47 >>> 9))) % 4294967296
  let t48 := ((r46 ^^^ (r47 ||| (r45 ^^^ 4294967295))) + r44 + 4096336452 + m0) % 4294967296
  let r48 := (r47 + (((t48 <<< 6) % 4294967296) ||| (t48 >>> 26))) % 4294967296
  let t49 := ((r47 ^^^ (r48 ||| (r46 ^^^ 4294967295))) + r45 + 1126891415 + m7) % 4294967296
  let r49 := (r48 + (((t49 <<< 10) % 4294967296) ||| (t49 >>> 22))) % 4294967296
  let t50 := ((r48 ^^^ (r49 ||| (r47 ^^^ 4294967295))) + r46 + 2878612391 + m14) % 4294967296
  let r50 := (r49 + (((t50 <<< 15) % 4294967296) ||| (t50 >>> 17))) % 4294967296
  let t51 := ((r49 ^^^ (r50 ||| (r48 ^^^ 4294967295))) + r47 + 4237533241 + m5) % 4294967296
  let r51 := (r50 + (((t51 <<< 21) % 4294967296) ||| (t51 >>> 11))) % 4294967296
  let t52 := ((r50 ^^^ (r51 ||| (r49 ^^^ 4294967295))) + r48 + 1700485571 + m12) % 4294967296
  let r52 := (r51 + (((t52 <<< 6) % 4294967296) ||| (t52 >>> 26))) % 4294967296
  let t53 := ((r51 ^^^ (r52 ||| (r50 ^^^ 4294967295))) + r49 + 2399980690 + m3) % 4294967296
  let r53 := (r52 + (((t53 <<< 10) % 4294967296) ||| (t53 >>> 22))) % 4294967296
  let t54 := ((r52 ^^^ (r53 ||| (r51 ^^^ 4294967295))) + r50 + 4293915773 + m10) % 4294967296
  let r54 := (r53 + (((t54 <<< 15) % 4294967296) ||| (t54 >>> 17))) % 4294967296
  let t55 := ((r53 ^^^ (r54 ||| (r52 ^^^ 4294967295))) + r51 + 2240044497 + m1) % 4294967296
  let r55 := (r54 + (((t55 <<< 21) % 4294967296) ||| (t55 >>> 11))) % 4294967296
  let t56 := ((r54 ^^^ (r55 ||| (r53 ^^^ 4294967295))) + r52 + 1873313359 + m8) % 4294967296
  let r56 := (r55 + (((t56 <<< 6) % 4294967296) ||| (t56 >>> 26))) % 4294967296
  let t57 := ((r55 ^^^ (r56 ||| (r54 ^^^ 4294967295))) + r53 + 4264355552 + m15) % 4294967296
  let r57 := (r56 + (((t57 <<< 10) % 4294967296) ||| (t57 >>> 22))) % 4294967296
  let t58 := ((r56 ^^^ (r57 ||| (r55 ^^^ 4294967295))) + r54 + 2734768916 + m6) % 4294967296
  let r58 := (r57 + (((t58 <<< 15) % 4294967296) ||| (t58 >>> 17))) % 4294967296
  let t59 := ((r57 ^^^ (r58 ||| (r56 ^^^ 4294967295))) + r55 + 1309151649 + m13) % 4294967296
  let r59 := (r58 + (((t59 <<< 21) % 4294967296) ||| (t59 >>> 11))) % 4294967296
  let t60 := ((r58 ^^^ (r59 ||| (r57 ^^^ 4294967295))) + r56 + 4149444226 + m4) % 4294967296
  let r60 := (r59 + (((t60 <<< 6) % 4294967296) ||| (t60 >>> 26))) % 4294967296
  let t61 := ((r59 ^^^ (r60 ||| (r58 ^^^ 4294967295))) + r57 + 3174756917 + m11) % 4294967296
  let r61 := (r60 + (((t61 <<< 10) % 4294967296) ||| (t61 >>> 22))) % 4294967296
  let t62 := ((r60 ^^^ (r61 ||| (r59 ^^^ 4294967295))) + r58 + 718787259 + m2) % 4294967296
  let r62 := (r61 + (((t62 <<< 15) % 4294967296) ||| (t62 >>> 17))) % 4294967296
  let t63 := ((r61 ^^^ (r62 ||| (r60 ^^^ 4294967295))) + r59 + 3951481745 + m9) % 4294967296
  let r63 := (r62 + (((t63 <<< 21) % 4294967296) ||| (t63 >>> 11))) % 4294967296
  ((a0 + r60) % 4294967296, (b0 + r63) % 4294967296, (c0 + r62) % 4294967296, (d0 + r61) % 4294967296)

/-- Pack a byte list into a natural number, little-endian (byte 0 is least
significant). -/
def bytesToNatLE : List Nat → Nat
  | [] => 0
  | b :: rest => b + 256 * bytesToNatLE rest

/-- Run `md5Comp` over `n` consecutive 512-bit blocks of `data` (little-endian
packed), starting from state `st`. -/
def md5Blocks : Nat → Nat → Nat × Nat × Nat × Nat → Nat × Nat × Nat × Nat
  | 0, _, st => st
  | n + 1, data, st =>
      md5Blocks n (data >>> 512) (md5Comp data st.1 st.2.1 st.2.2.1 st.2.2.2)

/-- The four bytes of a 32-bit word, little-endian. -/
def wordLE (w : Nat) : List Nat :=
  [w % 256, (w >>> 8) % 256, (w >>> 16) % 256, (w >>> 24) % 256]

/-- MD5 digest of a byte message: RFC 1321 padding (0x80, zeros to 56 mod 64,
then the bit length as 64-bit little-endian), block iteration from the standard
initial state, and the 16 digest bytes a, b, c, d in little-endian order. -/
def md5Bytes (msg : List Nat) : List Nat :=
  let len := msg.length
  let zeros := (120 - (len + 1) % 64) % 64
  let plen := len + 1 + zeros + 8
  let data := bytesToNatLE msg + (128 <<< (8 * len))
    + (((8 * len) % 18446744073709551616) <<< (8 * (plen - 8)))
  let st := md5Blocks (plen / 64) data (1732584193, 4023233417, 2562383102, 271733878)
  wordLE st.1 ++ wordLE st.2.1 ++ wordLE st.2.2.1 ++ wordLE st.2.2.2

/-- The lowercase hexadecimal alphabet, as produced by Python `hexdigest()`. -/
def hexChars : List Char := "0123456789abcdef".data

def hexDigitChar (n : Nat) : Char := hexChars.getD (n % 16) '0'

/-- Two lowercase hex characters of one byte, high nibble first. -/
def byteHex (b : Nat) : List Char := [hexDigitChar (b / 16), hexDigitChar b]

/-- `hashlib.md5(msg).hexdigest()`: the 32-character lowercase hex rendering of
the 16 digest bytes. -/
def md5hex (msg : List Nat) : String :=
  String.mk ((md5Bytes msg).map byteHex).flatten

/-- Inverse of `byteHex` on a hex character: its nibble value. -/
def hexVal (c : Char) : Nat := if c.toNat ≤ 57 then c.toNat - 48 else c.toNat - 87

/-- Parse pairs of hex characters back into bytes; inverse of mapping `byteHex`
over a byte list. -/
def parseHexBytes : List Char → List Nat
  | c1 :: c2 :: rest => (16 * hexVal c1 + hexVal c2) :: parseHexBytes rest
  | _ => []

/-- UTF-8 encoding of one unicode scalar value, as `str.encode("utf-8")`
produces per character. -/
def utf8Char (c : Char) : List Nat :=
  let n := c.toNat
  if n < 128 then [n]
  else if n < 2048 then [192 + n / 64, 128 + n % 64]
  else if n < 65536 then [224 + n / 4096, 128 + (n / 64) % 64, 128 + n % 64]
  else [240 + n / 262144, 128 + (n / 4096) % 64, 128 + (n / 64) % 64, 128 + n % 64]

/-- `s.encode("utf-8")` as a byte list. -/
def strBytes (s : String) : List Nat := (s.data.map utf8Char).flatten

/-- The `JobOffer` dataclass of `models/offers.py`, fields in declaration
order. `posted_date` is the raw `datetime` attribute string the scraper
extracts from the page, or `None` when the time element is absent
(`_parse_job_card`); likewise `url` is the link `href` or `None` when the
link element is missing. Both are therefore optional; the collaborator only
guarantees the three identity fields to be strings. -/
structure JobOffer where
  title : String
  company_name : String
  location : String
  posted_date : Option String
  description : Option String
  url : Option String
deriving DecidableEq, Repr

/-- `JobOffer.get_hash`: MD5 hexdigest of the UTF-8 bytes of the f-string
`f"{company_name}{title}{location}"`, i.e. the three identity fields
concatenated in that order with no separator and no normalization. -/
def JobOffer.get_hash (j : JobOffer) : String :=
  md5hex (strBytes (j.company_name ++ j.title ++ j.location))

/-- A Python runtime value stored in the dict that `JobOffer.to` returns:
five fields are strings, `description` is an optional string. -/
inductive PyValue where
  | vStr : String → PyValue
  | vOpt : Option String → PyValue
deriving DecidableEq, Repr

/-- `JobOffer.to`: `{k: v for k, v in self.__dict__.items()}` — the
insertion-ordered field dictionary, keys in dataclass declaration order. -/
def JobOffer.to (j : JobOffer) : List (String × PyValue) :=
  [("title", .vStr j.title), ("company_name", .vStr j.company_name),
   ("location", .vStr j.location), ("posted_date", .vOpt j.posted_date),
   ("description", .vOpt j.description), ("url", .vOpt j.url)]

/-- CPython f-string interpolation of a value that may be `None`:
`f"{x}"` renders `None` as the string `"None"`, not as the empty string. -/
def pyFStr : Option String → String
  | some s => s
  | none => "None"

/-- `get_hash` as it executes when identity fields hold `None` at runtime (the
dataclass annotations say `str` but are not enforced): each field goes through
f-string interpolation, so an absent field contributes `"None"`. -/
def get_hash_opt (company title location : Option String) : String :=
  md5hex (strBytes (pyFStr company ++ pyFStr title ++ pyFStr location))

/-- The fixed heading of `export_to_markdown` (`utils/markdown_export.py`),
with the job count interpolated. -/
def mdHeader (n : Nat) : String :=
  "# Summer 2025 internship opportunities\n\nThis list gets updated daily.\n\nPosted on refers to the date when the offer was posted on LinkedIn.\n\n## Available positions (" ++ toString n ++ " offers)\n\n"

/-- One per-job section of `export_to_markdown`: company heading, position,
location, posted date and the apply link, exactly as the f-string emits it;
an absent posted date or URL is interpolated as "None" by the f-string. -/
def mdSection (j : JobOffer) : String :=
  "### " ++ j.company_name ++ "\n- **Position:** " ++ j.title
    ++ "\n- **Location:** " ++ j.location ++ "\n- **Posted on:** "
    ++ pyFStr j.posted_date ++ "\n- [Apply here](" ++ pyFStr j.url ++ ")\n\n"

/-- `sorted(jobs, key=lambda x: x["posted_date"], reverse=True)`: a stable sort
that is descending on the posted-date key, equal keys keeping their original
relative order. The comparison is only reached when every key is a string
(see `export_to_markdown`), where it is string comparison; the `getD`
default never matters in that branch. -/
def pySortDesc (jobs : List JobOffer) : List JobOffer :=
  jobs.mergeSort (fun a b => decide (b.posted_date.getD "" ≤ a.posted_date.getD ""))

/-- Concatenation of a list of strings. -/
def concatAll : List String → String
  | [] => ""
  | s :: rest => s ++ concatAll rest

/-- The document `export_to_markdown` builds before writing it to the output
file: the heading, then one section per job appended in sorted order; the
file write itself is I/O outside this model. `sorted()` compares the raw
`posted_date` values: with at most one record no comparison runs, and
otherwise the sort's run detection compares every adjacent pair, so a `None`
date in a multi-record list is compared against a string (or `None`) and
raises TypeError — no document is produced, modelled as `none`. -/
def export_to_markdown (jobs : List JobOffer) : Option String :=
  if decide (jobs.length ≤ 1) || jobs.all (fun j => j.posted_date.isSome) then
    some ((pySortDesc jobs).foldl (fun content job => content ++ mdSection job)
      (mdHeader jobs.length))
  else none

/-- Modelled from the spec: the deduplicating `JobRepository`
(`repository/jobs.py`) is imported by `scraper.py` but its source file is not
part of the snapshot. Spec section 3: repository state is a mapping from
fingerprint to job record with unique keys and preserved insertion order,
created empty at process start; modelled as an insertion-ordered association
list. -/
structure JobRepository where
  storage : List (String × JobOffer)
deriving DecidableEq, Repr

/-- Modelled from the spec: the mapping is created empty at process start. -/
def JobRepository.empty : JobRepository := ⟨[]⟩

/-- Number of distinct records currently held. -/
def JobRepository.size (r : JobRepository) : Nat := r.storage.length

/-- The fingerprint keys, in insertion order. -/
def JobRepository.keys (r : JobRepository) : List String := r.storage.map Prod.fst

/-- Whether a fingerprint is already a key of the mapping. -/
def JobRepository.containsFp (r : JobRepository) (h : String) : Bool :=
  r.storage.any (fun p => p.1 == h)

/-- Insert a record under its fingerprint at the end, preserving insertion
order; the record is stored as-is. -/
def JobRepository.insertFp (r : JobRepository) (h : String) (j : JobOffer) : JobRepository :=
  ⟨r.storage ++ [(h, j)]⟩

/-- First record stored under a fingerprint, if any. -/
def lookupFp (h : String) : List (String × JobOffer) → Option JobOffer
  | [] => none
  | p :: rest => if p.1 = h then some p.2 else lookupFp h rest

/-- Modelled from the spec: `addJobs` (spec section 4.2). For each record in
order: compute its fingerprint; insert the record unchanged if the fingerprint
is not yet a key, else skip it silently. Returns the updated repository
together with the pair (records newly inserted by this call, total distinct
records held after the call); the post-state is made explicit because the
embedding is pure. -/
def JobRepository.add_jobs (r : JobRepository) : List JobOffer → JobRepository × Nat × Nat
  | [] => (r, 0, r.size)
  | j :: rest =>
    if r.containsFp j.get_hash then r.add_jobs rest
    else
      let p := (r.insertFp j.get_hash j).add_jobs rest
      (p.1, p.2.1 + 1, p.2.2)

/-- Modelled from the spec: `getAllJobs` returns every record currently held,
in the repository's (insertion) order. -/
def JobRepository.get_all_jobs (r : JobRepository) : List JobOffer :=
  r.storage.map Prod.snd

/-- The repository invariant: every stored pair is keyed by its record's
fingerprint, and keys are pairwise distinct. -/
def InvRepo (r : JobRepository) : Prop :=
  (∀ p ∈ r.storage, p.1 = p.2.get_hash) ∧ r.keys.Nodup


/-- The identity-field triple (company name, title, location) of a record:
the sole input of the fingerprint. -/
def tripleOf (j : JobOffer) : String × String × String :=
  (j.company_name, j.title, j.location)

/-- The fingerprint as a function of the identity triple alone. -/
def hashOfTriple (t : String × String × String) : String :=
  md5hex (strBytes (t.1 ++ t.2.1 ++ t.2.2))

/-- A hex digest string read back as a natural number: parse hex pairs to
bytes, then pack little-endian. Used to compare digests as numbers. -/
def hashToNat (s : String) : Nat := bytesToNatLE (parseHexBytes s.data)

/-- Strictly increasing chain check on a list of naturals. -/
def strictChainB : List Nat → Bool
  | [] => true
  | [_] => true
  | a :: b :: rest => decide (a < b) && strictChainB (b :: rest)

/-- Sample records used to instantiate the repository and fingerprint
theorems on concrete inputs. -/
def jA : JobOffer :=
  { title := "Backend Intern", company_name := "Acme", location := "NYC",
    posted_date := some "2025-05-01", description := none, url := some "a" }

def jA2 : JobOffer :=
  { title := "Backend Intern", company_name := "Acme", location := "NYC",
    posted_date := some "2025-05-02", description := none, url := some "b" }

def jB : JobOffer :=
  { title := "Frontend Intern", company_name := "Acme", location := "NYC",
    posted_date := some "2025-05-02", description := none, url := some "c" }

def jCase2 : JobOffer :=
  { title := "Backend Intern", company_name := "ACME", location := "NYC",
    posted_date := some "2025-05-01", description := none, url := some "a" }

def jWs1 : JobOffer :=
  { title := "Backend Intern", company_name := "Acme", location := "NYC ",
    posted_date := some "2025-05-01", description := none, url := some "a" }

/-- A record whose posted date and URL are absent, as `_parse_job_card`
produces when the time and link elements are missing. -/
def jNoDate : JobOffer :=
  { title := "Backend Intern", company_name := "Zeta", location := "LA",
    posted_date := none, description := none, url := none }

/-- Two records whose identity triples differ but whose concatenated identity
strings coincide ("ab" ++ "c" = "a" ++ "bc"), so their fingerprints are equal:
the fields are concatenated with no separator before hashing. -/
def bad0 : JobOffer :=
  { title := "c", company_name := "ab", location := "",
    posted_date := some "2025-05-01", description := none, url := some "u" }

def bad1 : JobOffer :=
  { title := "bc", company_name := "a", location := "",
    posted_date := some "2025-05-02", description := none, url := some "v" }

/-- A record family with fixed company and title and a varying location. -/
def goodRec (loc : String) : JobOffer :=
  { title := "Backend Intern", company_name := "Acme", location := loc,
    posted_date := some "2025-05-01", description := none, url := some "u" }

/-- Locations 0 to 99 of the 1000-record family `goodList`, listed in
increasing order of the digest value of the corresponding record. -/
def gLoc0 : List String :=
  ["587", "748", "574", "932", "831", "131", "780", "598", "542", "551", "646", "545", "911", 
   "648", "87", "449", "586", "343", "503", "372", "765", "68", "816", "804", "974", "624", 
   "572", "670", "157", "402", "657", "916", "182", "797", "316", "3", "507", "195", "335", 
   "770", "379", "186", "266", "874", "105", "826", "30", "407", "841", "696", "864", "584", 
   "882", "42", "995", "532", "739", "729", "236", "536", "172", "486", "352", "989", "240", 
   "462", "120", "106", "366", "763", "65", "187", "438", "855", "345", "136", "143", "642", 
   "414", "722", "442", "547", "305", "123", "976", "410", "215", "582", "380", "819", "34", 
   "766", "116", "893", "64", "726", "433", "716", "745", "895"]

/-- Locations 100 to 199 of the 1000-record family `goodList`, listed in
increasing order of the digest value of the corresponding record. -/
def gLoc1 : List String :=
  ["972", "57", "354", "389", "454", "573", "885", "184", "175", "688", "950", "317", "206", 
   "281", "482", "491", "223", "309", "947", "94", "499", "538", "651", "661", "141", "97", 
   "844", "8", "641", "423", "341", "522", "334", "526", "571", "796", "432", "588", "912", 
   "951", "107", "185", "751", "63", "7", "201", "19", "200", "33", "434", "762", "458", 
   "111", "530", "40", "633", "630", "602", "794", "611", "226", "948", "327", "973", "90", 
   "960", "687", "552", "984", "50", "242", "771", "66", "390", "971", "61", "71", "636", 
   "537", "805", "783", "575", "88", "291", "13", "518", "70", "786", "246", "292", "728", 
   "395", "894", "798", "560", "918", "830", "431", "181", "300"]

/-- Locations 200 to 299 of the 1000-record family `goodList`, listed in
increasing order of the digest value of the corresponding record. -/
def gLoc2 : List String :=
  ["125", "513", "910", "59", "473", "658", "664", "958", "297", "208", "277", "924", "383", 
   "917", "906", "205", "832", "158", "96", "98", "525", "871", "445", "9", "448", "183", 
   "909", "553", "557", "675", "48", "901", "257", "964", "828", "961", "791", "207", "22", 
   "218", "295", "108", "735", "847", "451", "270", "313", "652", "409", "900", "190", "56", 
   "220", "750", "996", "776", "153", "222", "970", "228", "620", "981", "6", "273", "992", 
   "529", "712", "905", "191", "727", "321", "457", "540", "650", "795", "591", "466", "276", 
   "821", "282", "146", "817", "930", "84", "632", "942", "773", "784", "29", "75", "693", 
   "331", "914", "543", "303", "78", "993", "720", "302", "660"]

/-- Locations 300 to 399 of the 1000-record family `goodList`, listed in
increasing order of the digest value of the corresponding record. -/
def gLoc3 : List String :=
  ["752", "51", "28", "211", "963", "603", "420", "856", "496", "162", "247", "122", "385", 
   "508", "400", "16", "528", "170", "988", "701", "578", "193", "833", "589", "412", "355", 
   "517", "706", "109", "171", "581", "298", "747", "424", "280", "149", "203", "533", "809", 
   "622", "966", "531", "251", "148", "274", "474", "772", "934", "829", "243", "954", "232", 
   "592", "511", "539", "104", "943", "837", "653", "364", "411", "165", "307", "140", "262", 
   "800", "155", "436", "145", "439", "679", "562", "694", "483", "923", "593", "737", "126", 
   "616", "793", "311", "818", "617", "876", "79", "132", "129", "318", "340", "287", "179", 
   "392", "957", "152", "498", "493", "787", "521", "689", "112"]

/-- Locations 400 to 499 of the 1000-record family `goodList`, listed in
increasing order of the digest value of the corresponding record. -/
def gLoc4 : List String :=
  ["325", "711", "897", "294", "77", "487", "429", "579", "945", "546", "127", "370", "60", 
   "860", "843", "986", "204", "686", "692", "320", "264", "45", "488", "556", "931", "497", 
   "756", "58", "621", "952", "774", "173", "69", "678", "858", "0", "124", "990", "74", "38", 
   "761", "161", "73", "477", "168", "100", "979", "133", "925", "755", "134", "742", "594", 
   "665", "216", "732", "20", "604", "227", "430", "25", "332", "928", "619", "373", "618", 
   "212", "241", "936", "367", "577", "362", "949", "707", "609", "514", "82", "32", "567", 
   "403", "490", "272", "489", "839", "254", "596", "468", "76", "915", "219", "834", "663", 
   "822", "376", "333", "268", "962", "743", "53", "11"]

/-- Locations 500 to 599 of the 1000-record family `goodList`, listed in
increasing order of the digest value of the corresponding record. -/
def gLoc5 : List String :=
  ["39", "558", "296", "481", "606", "267", "790", "956", "980", "714", "718", "896", "336", 
   "101", "147", "643", "177", "283", "953", "391", "130", "640", "561", "627", "119", "17", 
   "975", "306", "328", "967", "968", "440", "387", "857", "139", "286", "866", "524", "999", 
   "544", "252", "662", "417", "144", "998", "987", "700", "683", "920", "628", "757", "865", 
   "470", "359", "921", "382", "672", "416", "935", "861", "554", "285", "902", "877", "239", 
   "368", "169", "824", "775", "681", "235", "815", "595", "744", "724", "623", "883", "330", 
   "329", "527", "404", "684", "505", "738", "233", "85", "47", "35", "444", "221", "86", 
   "419", "937", "138", "10", "469", "49", "969", "81", "887"]

/-- Locations 600 to 699 of the 1000-record family `goodList`, listed in
increasing order of the digest value of the corresponding record. -/
def gLoc6 : List String :=
  ["698", "563", "213", "495", "555", "492", "626", "549", "731", "669", "393", "802", "812", 
   "520", "710", "160", "927", "476", "455", "959", "504", "278", "371", "95", "167", "435", 
   "413", "344", "31", "614", "54", "778", "610", "854", "566", "977", "464", "666", "350", 
   "397", "736", "647", "836", "55", "699", "485", "381", "217", "275", "326", "891", "128", 
   "769", "36", "838", "163", "265", "725", "299", "600", "310", "249", "740", "758", "342", 
   "180", "12", "494", "785", "634", "638", "808", "846", "806", "150", "760", "870", "548", 
   "164", "629", "301", "515", "231", "842", "399", "174", "719", "764", "478", "27", "263", 
   "67", "872", "559", "271", "500", "178", "41", "702", "118"]

/-- Locations 700 to 799 of the 1000-record family `goodList`, listed in
increasing order of the digest value of the corresponding record. -/
def gLoc7 : List String :=
  ["154", "813", "225", "43", "768", "394", "635", "703", "388", "840", "374", "188", "907", 
   "244", "46", "788", "590", "62", "425", "820", "576", "564", "114", "868", "21", "37", 
   "803", "654", "479", "250", "245", "814", "753", "512", "853", "659", "137", "450", "259", 
   "994", "862", "639", "565", "72", "510", "597", "443", "348", "946", "353", "848", "386", 
   "323", "365", "534", "625", "849", "516", "978", "734", "322", "103", "852", "904", "673", 
   "261", "792", "312", "601", "234", "319", "501", "938", "91", "471", "811", "782", "850", 
   "697", "903", "269", "467", "406", "196", "880", "682", "746", "1", "680", "293", "460", 
   "349", "484", "637", "238", "754", "671", "723", "615", "835"]

/-- Locations 800 to 899 of the 1000-record family `goodList`, listed in
increasing order of the digest value of the corresponding record. -/
def gLoc8 : List String :=
  ["875", "709", "401", "881", "908", "93", "509", "472", "982", "730", "361", "863", "890", 
   "80", "255", "14", "447", "337", "674", "135", "541", "605", "110", "224", "151", "944", 
   "408", "939", "749", "324", "704", "884", "377", "889", "733", "721", "426", "189", "363", 
   "23", "99", "194", "613", "631", "121", "117", "214", "888", "260", "396", "461", "708", 
   "437", "159", "825", "827", "535", "892", "676", "779", "685", "166", "845", "899", "279", 
   "308", "229", "26", "713", "705", "568", "415", "83", "237", "405", "338", "52", "357", 
   "991", "15", "878", "347", "691", "955", "799", "523", "418", "453", "360", "346", "502", 
   "997", "102", "198", "690", "599", "656", "717", "759", "115"]

/-- Locations 900 to 999 of the 1000-record family `goodList`, listed in
increasing order of the digest value of the corresponding record. -/
def gLoc9 : List String :=
  ["92", "922", "480", "452", "369", "209", "569", "176", "985", "463", "202", "810", "256", 
   "18", "459", "781", "290", "608", "44", "356", "113", "456", "851", "919", "5", "358", 
   "339", "929", "873", "384", "789", "351", "695", "4", "668", "869", "315", "983", "284", 
   "422", "210", "715", "823", "940", "801", "898", "677", "375", "465", "304", "192", "767", 
   "583", "314", "644", "926", "519", "475", "807", "913", "89", "941", "441", "649", "427", 
   "859", "550", "378", "2", "199", "446", "289", "506", "741", "156", "886", "933", "142", 
   "655", "421", "24", "612", "667", "197", "580", "607", "645", "230", "965", "398", "585", 
   "248", "777", "253", "258", "570", "879", "428", "867", "288"]

def goodLoc : List String :=
  gLoc0 ++ gLoc1 ++ gLoc2 ++ gLoc3 ++ gLoc4 ++ gLoc5 ++ gLoc6 ++ gLoc7 ++ gLoc8 ++ gLoc9

/-- 1000 records with pairwise distinct identity triples whose fingerprints
are pairwise distinct. -/
def goodList : List JobOffer := goodLoc.map goodRec

/-- The digest of a `goodRec`, as a number. -/
def natHash (l : String) : Nat := hashToNat (goodRec l).get_hash

/-- Digest value of record 99 of `goodList`, the largest of chunk 0. -/
def bnd0 : Nat := 32407532249341151695203996942929839128

/-- Digest value of record 199 of `goodList`, the largest of chunk 1. -/
def bnd1 : Nat := 70729635356868016657372883694273744604

/-- Digest value of record 299 of `goodList`, the largest of chunk 2. -/
def bnd2 : Nat := 102780585644223677389041771232201690281

/-- Digest value of record 399 of `goodList`, the largest of chunk 3. -/
def bnd3 : Nat := 136143240610849238558801056655065360059

/-- Digest value of record 499 of `goodList`, the largest of chunk 4. -/
def bnd4 : Nat := 175142654237348186790490255271317786839

/-- Digest value of record 599 of `goodList`, the largest of chunk 5. -/
def bnd5 : Nat := 211480081760436982664391917467393971739

/-- Digest value of record 699 of `goodList`, the largest of chunk 6. -/
def bnd6 : Nat := 242060581389284981981675399553701674686

/-- Digest value of record 799 of `goodList`, the largest of chunk 7. -/
def bnd7 : Nat := 276507236893414793682885399148005141329

/-- Digest value of record 899 of `goodList`, the largest of chunk 8. -/
def bnd8 : Nat := 311696681148120404277404444381961888321

/-- 1000 records with pairwise distinct identity triples of which two
(`bad0`, `bad1`) share a fingerprint. -/
def badList : List JobOffer := bad0 :: bad1 :: goodList.drop 2

example : md5hex (strBytes "abc") = "900150983cd24fb0d6963f7d28e17f72" := by decide

example : md5hex (strBytes "") = "d41d8cd98f00b204e9800998ecf8427e" := by decide

example :
    md5hex (strBytes "The quick brown fox jumps over the lazy dog")
      = "9e107d9d372bb6826bd81d3542a419d6" := by decide

theorem add_jobs_nil (r : JobRepository) : r.add_jobs [] = (r, 0, r.size) := rfl

theorem add_jobs_cons_mem (r : JobRepository) (j : JobOffer) (rest : List JobOffer)
    (h : r.containsFp j.get_hash = true) :
    r.add_jobs (j :: rest) = r.add_jobs rest := by
  simp [JobRepository.add_jobs, h]

theorem add_jobs_cons_new (r : JobRepository) (j : JobOffer) (rest : List JobOffer)
    (h : r.containsFp j.get_hash = false) :
    r.add_jobs (j :: rest)
      = (((r.insertFp j.get_hash j).add_jobs rest).1,
         ((r.insertFp j.get_hash j).add_jobs rest).2.1 + 1,
         ((r.insertFp j.get_hash j).add_jobs rest).2.2) := by
  simp [JobRepository.add_jobs, h]

theorem size_insertFp (r : JobRepository) (h : String) (j : JobOffer) :
    (r.insertFp h j).size = r.size + 1 := by
  simp [JobRepository.insertFp, JobRepository.size]

theorem add_jobs_total_eq_size (r : JobRepository) (l : List JobOffer) :
    (r.add_jobs l).2.2 = (r.add_jobs l).1.size := by
  induction l generalizing r with
  | nil => rfl
  | cons j rest ih =>
    by_cases h : r.containsFp j.get_hash = true
    · rw [add_jobs_cons_mem r j rest h]; exact ih r
    · rw [add_jobs_cons_new r j rest (by simpa using h)]; exact ih _

theorem add_jobs_size (r : JobRepository) (l : List JobOffer) :
    (r.add_jobs l).1.size = r.size + (r.add_jobs l).2.1 := by
  induction l generalizing r with
  | nil => rfl
  | cons j rest ih =>
    by_cases h : r.containsFp j.get_hash = true
    · rw [add_jobs_cons_mem r j rest h]; exact ih r
    · rw [add_jobs_cons_new r j rest (by simpa using h)]
      have h2 := ih (r.insertFp j.get_hash j)
      rw [size_insertFp] at h2
      dsimp only
      omega

theorem add_jobs_storage_ext (r : JobRepository) (l : List JobOffer) :
    ∃ ext, (r.add_jobs l).1.storage = r.storage ++ ext := by
  induction l generalizing r with
  | nil => exact ⟨[], by simp [add_jobs_nil]⟩
  | cons j rest ih =>
    by_cases h : r.containsFp j.get_hash = true
    · rw [add_jobs_cons_mem r j rest h]; exact ih r
    · rw [add_jobs_cons_new r j rest (by simpa using h)]
      obtain ⟨ext, he⟩ := ih (r.insertFp j.get_hash j)
      refine ⟨(j.get_hash, j) :: ext, ?_⟩
      simp only [JobRepository.insertFp] at he
      simpa [List.append_assoc] using he

theorem containsFp_mono (r : JobRepository) (l : List JobOffer) (h : String)
    (hc : r.containsFp h = true) : ((r.add_jobs l).1).containsFp h = true := by
  obtain ⟨ext, he⟩ := add_jobs_storage_ext r l
  simp only [JobRepository.containsFp] at hc ⊢
  rw [he, List.any_append, hc, Bool.true_or]

theorem containsFp_insert_self (r : JobRepository) (h : String) (j : JobOffer) :
    (r.insertFp h j).containsFp h = true := by
  simp [JobRepository.insertFp, JobRepository.containsFp, List.any_append]

theorem containsFp_of_mem (r : JobRepository) (l : List JobOffer) (j : JobOffer)
    (hm : j ∈ l) : ((r.add_jobs l).1).containsFp j.get_hash = true := by
  induction l generalizing r with
  | nil => cases hm
  | cons k rest ih =>
    by_cases hk : r.containsFp k.get_hash = true
    · rw [add_jobs_cons_mem r k rest hk]
      rcases List.mem_cons.mp hm with rfl | hm'
      · exact containsFp_mono r rest _ hk
      · exact ih _ hm'
    · rw [add_jobs_cons_new r k rest (by simpa using hk)]
      rcases List.mem_cons.mp hm with rfl | hm'
      · exact containsFp_mono _ rest _ (containsFp_insert_self r _ _)
      · exact ih _ hm'

theorem add_jobs_append (r : JobRepository) (l m : List JobOffer) :
    r.add_jobs (l ++ m)
      = (((r.add_jobs l).1.add_jobs m).1,
         (r.add_jobs l).2.1 + ((r.add_jobs l).1.add_jobs m).2.1,
         ((r.add_jobs l).1.add_jobs m).2.2) := by
  induction l generalizing r with
  | nil => simp [add_jobs_nil]
  | cons j rest ih =>
    by_cases h : r.containsFp j.get_hash = true
    · rw [List.cons_append, add_jobs_cons_mem r j _ h, add_jobs_cons_mem r j rest h]
      exact ih r
    · rw [List.cons_append, add_jobs_cons_new r j _ (by simpa using h),
          add_jobs_cons_new r j rest (by simpa using h)]
      rw [ih (r.insertFp j.get_hash j)]
      dsimp only
      simp only [Prod.mk.injEq]
      exact ⟨by trivial, by omega, by trivial⟩

theorem add_jobs_all_present (r : JobRepository) (l : List JobOffer)
    (h : ∀ j ∈ l, r.containsFp j.get_hash = true) :
    r.add_jobs l = (r, 0, r.size) := by
  induction l with
  | nil => rfl
  | cons j rest ih =>
    rw [add_jobs_cons_mem r j rest (h j (by simp))]
    exact ih (fun k hk => h k (by simp [hk]))

theorem containsFp_insertFp (r : JobRepository) (h : String) (j : JobOffer) (h2 : String) :
    (r.insertFp h j).containsFp h2 = (r.containsFp h2 || (h == h2)) := by
  simp [JobRepository.insertFp, JobRepository.containsFp, List.any_append]

theorem add_jobs_all_new (r : JobRepository) (l : List JobOffer)
    (hn : (l.map JobOffer.get_hash).Nodup)
    (hf : ∀ j ∈ l, r.containsFp j.get_hash = false) :
    r.add_jobs l
      = (⟨r.storage ++ l.map (fun j => (j.get_hash, j))⟩, l.length, r.size + l.length) := by
  induction l generalizing r with
  | nil =>
    rw [add_jobs_nil]
    simp
  | cons j rest ih =>
    have hj : r.containsFp j.get_hash = false := hf j (by simp)
    rw [add_jobs_cons_new r j rest hj]
    rw [List.map_cons] at hn
    have hnodup := List.nodup_cons.mp hn
    have hf' : ∀ k ∈ rest, (r.insertFp j.get_hash j).containsFp k.get_hash = false := by
      intro k hk
      rw [containsFp_insertFp]
      have h1 : r.containsFp k.get_hash = false := hf k (by simp [hk])
      have h2 : (j.get_hash == k.get_hash) = false := by
        rw [beq_eq_false_iff_ne]
        intro hEq
        exact hnodup.1 (hEq ▸ List.mem_map_of_mem JobOffer.get_hash hk)
      rw [h1, h2]
      rfl
    rw [ih (r.insertFp j.get_hash j) hnodup.2 hf']
    dsimp only
    rw [size_insertFp]
    simp only [JobRepository.insertFp, JobRepository.mk.injEq, Prod.mk.injEq,
      List.append_assoc, List.singleton_append, List.map_cons, List.length_cons]
    refine ⟨by trivial, by trivial, by omega⟩

theorem lookupFp_append_left (h : String) (s e : List (String × JobOffer)) (j : JobOffer)
    (hl : lookupFp h s = some j) : lookupFp h (s ++ e) = some j := by
  induction s with
  | nil => simp [lookupFp] at hl
  | cons p rest ih =>
    by_cases hp : p.1 = h
    · simpa [lookupFp, hp] using hl
    · simp only [lookupFp, hp, if_false, List.cons_append] at hl ⊢
      exact ih hl

theorem lookupFp_preserved (r : JobRepository) (l : List JobOffer) (h : String) (j : JobOffer)
    (hl : lookupFp h r.storage = some j) :
    lookupFp h ((r.add_jobs l).1.storage) = some j := by
  obtain ⟨ext, he⟩ := add_jobs_storage_ext r l
  rw [he]
  exact lookupFp_append_left h r.storage ext j hl

theorem invRepo_empty : InvRepo JobRepository.empty := by
  constructor
  · intro p hp
    simp [JobRepository.empty] at hp
  · simp [JobRepository.empty, JobRepository.keys]

theorem not_mem_keys_of_not_containsFp (r : JobRepository) (h : String)
    (hc : r.containsFp h = false) : h ∉ r.keys := by
  intro hmem
  obtain ⟨p, hp, hph⟩ := List.mem_map.mp hmem
  simp only [JobRepository.containsFp, List.any_eq_false] at hc
  exact absurd (by simpa using hph) (by simpa using hc p hp)

theorem invRepo_insertFp (r : JobRepository) (j : JobOffer)
    (hi : InvRepo r) (hc : r.containsFp j.get_hash = false) :
    InvRepo (r.insertFp j.get_hash j) := by
  constructor
  · intro p hp
    simp only [JobRepository.insertFp, List.mem_append, List.mem_singleton] at hp
    rcases hp with hp | rfl
    · exact hi.1 p hp
    · rfl
  · have hk : (r.insertFp j.get_hash j).keys = r.keys ++ [j.get_hash] := by
      simp [JobRepository.insertFp, JobRepository.keys]
    rw [hk, List.nodup_append]
    refine ⟨hi.2, List.nodup_singleton _, ?_⟩
    intro a ha hb
    simp only [List.mem_singleton] at hb
    subst hb
    exact not_mem_keys_of_not_containsFp r _ hc ha

theorem invRepo_add_jobs (r : JobRepository) (l : List JobOffer)
    (hi : InvRepo r) : InvRepo (r.add_jobs l).1 := by
  induction l generalizing r with
  | nil => exact hi
  | cons j rest ih =>
    by_cases h : r.containsFp j.get_hash = true
    · rw [add_jobs_cons_mem r j rest h]; exact ih r hi
    · rw [add_jobs_cons_new r j rest (by simpa using h)]
      exact ih _ (invRepo_insertFp r j hi (by simpa using h))

theorem get_all_jobs_hashes_eq_keys (r : JobRepository) (hi : InvRepo r) :
    (r.get_all_jobs).map JobOffer.get_hash = r.keys := by
  simp only [JobRepository.get_all_jobs, JobRepository.keys, List.map_map]
  exact List.map_congr_left (fun p hp => (hi.1 p hp).symm)

theorem length_flatten_byteHex (bs : List Nat) :
    ((bs.map byteHex).flatten).length = 2 * bs.length := by
  induction bs with
  | nil => rfl
  | cons b rest ih =>
    simp only [List.map_cons, List.flatten_cons, List.length_append, ih, byteHex,
      List.length_cons, List.length_nil, List.length_cons]
    omega

theorem md5Bytes_length (msg : List Nat) : (md5Bytes msg).length = 16 := by
  simp [md5Bytes, wordLE]

theorem md5hex_length (msg : List Nat) : (md5hex msg).length = 32 := by
  show ((md5Bytes msg).map byteHex).flatten.length = 32
  rw [length_flatten_byteHex, md5Bytes_length]

theorem hexDigitChar_mem (n : Nat) : hexDigitChar n ∈ hexChars := by
  have h16 : n % 16 < 16 := Nat.mod_lt _ (by norm_num)
  have hall : ∀ m, m < 16 → hexChars.getD m '0' ∈ hexChars := by decide
  exact hall _ h16

theorem md5hex_all_hex (msg : List Nat) :
    (md5hex msg).data.all (fun c => decide (c ∈ hexChars)) = true := by
  show ((md5Bytes msg).map byteHex).flatten.all (fun c => decide (c ∈ hexChars)) = true
  rw [List.all_eq_true]
  intro c hc
  rw [decide_eq_true_eq]
  obtain ⟨l, hl, hcl⟩ := List.mem_flatten.mp hc
  obtain ⟨b, _, rfl⟩ := List.mem_map.mp hl
  simp only [byteHex, List.mem_cons, List.not_mem_nil, or_false] at hcl
  rcases hcl with rfl | rfl <;> exact hexDigitChar_mem _

theorem wordLE_all_lt (w : Nat) : ∀ b ∈ wordLE w, b < 256 := by
  intro b hb
  simp only [wordLE, List.mem_cons, List.not_mem_nil, or_false] at hb
  rcases hb with rfl | rfl | rfl | rfl <;> omega

theorem md5Bytes_all_lt (msg : List Nat) : ∀ b ∈ md5Bytes msg, b < 256 := by
  intro b hb
  simp only [md5Bytes, List.mem_append] at hb
  rcases hb with ((hb | hb) | hb) | hb <;> exact wordLE_all_lt _ b hb

theorem bytesToNatLE_lt (bs : List Nat) (h : ∀ b ∈ bs, b < 256) :
    bytesToNatLE bs < 256 ^ bs.length := by
  induction bs with
  | nil => simp [bytesToNatLE]
  | cons b rest ih =>
    have hb : b < 256 := h b (by simp)
    have hr := ih (fun x hx => h x (by simp [hx]))
    simp only [bytesToNatLE, List.length_cons, pow_succ]
    calc b + 256 * bytesToNatLE rest < 256 * (bytesToNatLE rest + 1) := by omega
      _ ≤ 256 * 256 ^ rest.length := Nat.mul_le_mul_left _ hr
      _ = 256 ^ rest.length * 256 := Nat.mul_comm _ _

theorem digest_lt_128bit (msg : List Nat) :
    bytesToNatLE (md5Bytes msg) < 340282366920938463463374607431768211456 := by
  have h := bytesToNatLE_lt (md5Bytes msg) (md5Bytes_all_lt msg)
  rw [md5Bytes_length] at h
  exact lt_of_lt_of_le h (by norm_num)

theorem parseHex_byteHex (bs : List Nat) (h : ∀ b ∈ bs, b < 256) :
    parseHexBytes ((bs.map byteHex).flatten) = bs := by
  induction bs with
  | nil => rfl
  | cons b rest ih =>
    have hb : b < 256 := h b (by simp)
    have key : ∀ x, x < 256 →
        16 * hexVal (hexDigitChar (x / 16)) + hexVal (hexDigitChar x) = x := by decide
    simp only [List.map_cons, List.flatten_cons, byteHex, List.cons_append, List.nil_append,
      parseHexBytes]
    rw [key b hb]
    have hr := ih (fun x hx => h x (by simp [hx]))
    simpa using hr

theorem hashToNat_md5hex (msg : List Nat) :
    hashToNat (md5hex msg) = bytesToNatLE (md5Bytes msg) := by
  show bytesToNatLE (parseHexBytes ((md5Bytes msg).map byteHex).flatten)
    = bytesToNatLE (md5Bytes msg)
  rw [parseHex_byteHex _ (md5Bytes_all_lt msg)]

theorem strictChainB_chain : ∀ l : List Nat, strictChainB l = true → List.Chain' (· < ·) l
  | [], _ => List.chain'_nil
  | [a], _ => List.chain'_singleton a
  | a :: b :: rest, h => by
    simp only [strictChainB, Bool.and_eq_true, decide_eq_true_eq] at h
    exact List.Chain'.cons h.1 (strictChainB_chain (b :: rest) h.2)

theorem nodup_of_strictChainB (l : List Nat) (h : strictChainB l = true) : l.Nodup :=
  ((List.chain'_iff_pairwise).mp (strictChainB_chain l h)).imp Nat.ne_of_lt

theorem strictChainB_append : ∀ (A : List Nat) (a : Nat) (B : List Nat),
    strictChainB A = true → A.getLast? = some a → strictChainB (a :: B) = true →
    strictChainB (A ++ B) = true
  | [], a, B, _, hl, _ => by simp at hl
  | [x], a, B, _, hl, hB => by
    simp only [List.getLast?_singleton, Option.some.injEq] at hl
    simpa [hl] using hB
  | x :: y :: rest, a, B, hA, hl, hB => by
    simp only [strictChainB, Bool.and_eq_true, decide_eq_true_eq] at hA
    have hl' : (y :: rest).getLast? = some a := by
      simpa [List.getLast?_cons_cons] using hl
    have ih := strictChainB_append (y :: rest) a B hA.2 hl' hB
    simp only [List.cons_append, strictChainB, Bool.and_eq_true, decide_eq_true_eq] at ih ⊢
    exact ⟨hA.1, ih⟩

theorem foldl_append_sections (l : List JobOffer) :
    ∀ init : String,
      l.foldl (fun content job => content ++ mdSection job) init
        = init ++ concatAll (l.map mdSection) := by
  induction l with
  | nil => intro init; simp [concatAll, String.append_empty]
  | cons j rest ih =>
    intro init
    simp only [List.foldl_cons, List.map_cons, concatAll]
    rw [ih (init ++ mdSection j), String.append_assoc]

theorem pySortDesc_perm (jobs : List JobOffer) : (pySortDesc jobs).Perm jobs :=
  List.mergeSort_perm jobs _

theorem pySortDesc_sorted (jobs : List JobOffer) :
    List.Pairwise (fun a b => b.posted_date.getD "" ≤ a.posted_date.getD "")
      (pySortDesc jobs) := by
  have h : List.Pairwise
      (fun a b : JobOffer => (decide (b.posted_date.getD "" ≤ a.posted_date.getD "")) = true)
      (jobs.mergeSort (fun a b => decide (b.posted_date.getD "" ≤ a.posted_date.getD ""))) := by
    apply List.sorted_mergeSort
    · intro a b c hab hbc
      simp only [decide_eq_true_eq] at hab hbc ⊢
      exact le_trans hbc hab
    · intro a b
      simp only [Bool.or_eq_true, decide_eq_true_eq]
      exact le_total (b.posted_date.getD "") (a.posted_date.getD "")
  exact h.imp (fun hab => by simpa using hab)

theorem mdSection_data (j : JobOffer) :
    (mdSection j).data
      = "### ".data ++ j.company_name.data ++ "\n- **Position:** ".data ++ j.title.data
        ++ "\n- **Location:** ".data ++ j.location.data ++ "\n- **Posted on:** ".data
        ++ (pyFStr j.posted_date).data ++ "\n- [Apply here](".data
        ++ (pyFStr j.url).data ++ ")\n\n".data := by
  simp [mdSection, String.data_append]

theorem goodChain0 : strictChainB (gLoc0.map natHash) = true := by decide

theorem goodChain1 : strictChainB (bnd0 :: gLoc1.map natHash) = true := by decide

theorem goodChain2 : strictChainB (bnd1 :: gLoc2.map natHash) = true := by decide

theorem goodChain3 : strictChainB (bnd2 :: gLoc3.map natHash) = true := by decide

theorem goodChain4 : strictChainB (bnd3 :: gLoc4.map natHash) = true := by decide

theorem goodChain5 : strictChainB (bnd4 :: gLoc5.map natHash) = true := by decide

theorem goodChain6 : strictChainB (bnd5 :: gLoc6.map natHash) = true := by decide

theorem goodChain7 : strictChainB (bnd6 :: gLoc7.map natHash) = true := by decide

theorem goodChain8 : strictChainB (bnd7 :: gLoc8.map natHash) = true := by decide

theorem goodChain9 : strictChainB (bnd8 :: gLoc9.map natHash) = true := by decide

theorem goodLast0 : (gLoc0.map natHash).getLast? = some bnd0 := by decide

theorem goodLast1 : (bnd0 :: gLoc1.map natHash).getLast? = some bnd1 := by decide

theorem goodLast2 : (bnd1 :: gLoc2.map natHash).getLast? = some bnd2 := by decide

theorem goodLast3 : (bnd2 :: gLoc3.map natHash).getLast? = some bnd3 := by decide

theorem goodLast4 : (bnd3 :: gLoc4.map natHash).getLast? = some bnd4 := by decide

theorem goodLast5 : (bnd4 :: gLoc5.map natHash).getLast? = some bnd5 := by decide

theorem goodLast6 : (bnd5 :: gLoc6.map natHash).getLast? = some bnd6 := by decide

theorem goodLast7 : (bnd6 :: gLoc7.map natHash).getLast? = some bnd7 := by decide

theorem goodLast8 : (bnd7 :: gLoc8.map natHash).getLast? = some bnd8 := by decide

theorem goodCat9 : strictChainB (bnd8 :: gLoc9.map natHash) = true := goodChain9

theorem goodCat8 :
    strictChainB (bnd7 :: (gLoc8.map natHash ++ (gLoc9.map natHash))) = true := by
  have h := strictChainB_append (bnd7 :: gLoc8.map natHash) bnd8 (gLoc9.map natHash)
    goodChain8 goodLast8 goodCat9
  simpa using h

theorem goodCat7 :
    strictChainB (bnd6 :: (gLoc7.map natHash ++ (gLoc8.map natHash ++ gLoc9.map natHash))) = true := by
  have h := strictChainB_append (bnd6 :: gLoc7.map natHash) bnd7 (gLoc8.map natHash ++ gLoc9.map natHash)
    goodChain7 goodLast7 goodCat8
  simpa using h

theorem goodCat6 :
    strictChainB (bnd5 :: (gLoc6.map natHash ++ (gLoc7.map natHash ++ gLoc8.map natHash ++ gLoc9.map natHash))) = true := by
  have h := strictChainB_append (bnd5 :: gLoc6.map natHash) bnd6 (gLoc7.map natHash ++ gLoc8.map natHash ++ gLoc9.map natHash)
    goodChain6 goodLast6 goodCat7
  simpa using h

theorem goodCat5 :
    strictChainB (bnd4 :: (gLoc5.map natHash ++ (gLoc6.map natHash ++ gLoc7.map natHash ++ gLoc8.map natHash ++ gLoc9.map natHash))) = true := by
  have h := strictChainB_append (bnd4 :: gLoc5.map natHash) bnd5 (gLoc6.map natHash ++ gLoc7.map natHash ++ gLoc8.map natHash ++ gLoc9.map natHash)
    goodChain5 goodLast5 goodCat6
  simpa using h

theorem goodCat4 :
    strictChainB (bnd3 :: (gLoc4.map natHash ++ (gLoc5.map natHash ++ gLoc6.map natHash ++ gLoc7.map natHash ++ gLoc8.map natHash ++ gLoc9.map natHash))) = true := by
  have h := strictChainB_append (bnd3 :: gLoc4.map natHash) bnd4 (gLoc5.map natHash ++ gLoc6.map natHash ++ gLoc7.map natHash ++ gLoc8.map natHash ++ gLoc9.map natHash)
    goodChain4 goodLast4 goodCat5
  simpa using h

theorem goodCat3 :
    strictChainB (bnd2 :: (gLoc3.map natHash ++ (gLoc4.map natHash ++ gLoc5.map natHash ++ gLoc6.map natHash ++ gLoc7.map natHash ++ gLoc8.map natHash ++ gLoc9.map natHash))) = true := by
  have h := strictChainB_append (bnd2 :: gLoc3.map natHash) bnd3 (gLoc4.map natHash ++ gLoc5.map natHash ++ gLoc6.map natHash ++ gLoc7.map natHash ++ gLoc8.map natHash ++ gLoc9.map natHash)
    goodChain3 goodLast3 goodCat4
  simpa using h

theorem goodCat2 :
    strictChainB (bnd1 :: (gLoc2.map natHash ++ (gLoc3.map natHash ++ gLoc4.map natHash ++ gLoc5.map natHash ++ gLoc6.map natHash ++ gLoc7.map natHash ++ gLoc8.map natHash ++ gLoc9.map natHash))) = true := by
  have h := strictChainB_append (bnd1 :: gLoc2.map natHash) bnd2 (gLoc3.map natHash ++ gLoc4.map natHash ++ gLoc5.map natHash ++ gLoc6.map natHash ++ gLoc7.map natHash ++ gLoc8.map natHash ++ gLoc9.map natHash)
    goodChain2 goodLast2 goodCat3
  simpa using h

theorem goodCat1 :
    strictChainB (bnd0 :: (gLoc1.map natHash ++ (gLoc2.map natHash ++ gLoc3.map natHash ++ gLoc4.map natHash ++ gLoc5.map natHash ++ gLoc6.map natHash ++ gLoc7.map natHash ++ gLoc8.map natHash ++ gLoc9.map natHash))) = true := by
  have h := strictChainB_append (bnd0 :: gLoc1.map natHash) bnd1 (gLoc2.map natHash ++ gLoc3.map natHash ++ gLoc4.map natHash ++ gLoc5.map natHash ++ gLoc6.map natHash ++ gLoc7.map natHash ++ gLoc8.map natHash ++ gLoc9.map natHash)
    goodChain1 goodLast1 goodCat2
  simpa using h

theorem goodCat0 :
    strictChainB (gLoc0.map natHash ++ (gLoc1.map natHash ++ gLoc2.map natHash ++ gLoc3.map natHash ++ gLoc4.map natHash ++ gLoc5.map natHash ++ gLoc6.map natHash ++ gLoc7.map natHash ++ gLoc8.map natHash ++ gLoc9.map natHash)) = true := by
  have h := strictChainB_append (gLoc0.map natHash) bnd0 (gLoc1.map natHash ++ gLoc2.map natHash ++ gLoc3.map natHash ++ gLoc4.map natHash ++ gLoc5.map natHash ++ gLoc6.map natHash ++ gLoc7.map natHash ++ gLoc8.map natHash ++ gLoc9.map natHash)
    goodChain0 goodLast0 goodCat1
  simpa using h

theorem goodNats_nodup : (goodLoc.map natHash).Nodup := by
  have he : goodLoc.map natHash
      = gLoc0.map natHash ++ (gLoc1.map natHash ++ gLoc2.map natHash ++ gLoc3.map natHash
        ++ gLoc4.map natHash ++ gLoc5.map natHash ++ gLoc6.map natHash ++ gLoc7.map natHash
        ++ gLoc8.map natHash ++ gLoc9.map natHash) := by
    simp [goodLoc, List.map_append, List.append_assoc]
  rw [he]
  apply nodup_of_strictChainB
  have h := goodCat0
  simpa [List.append_assoc] using h

theorem goodHashes_nodup : (goodList.map JobOffer.get_hash).Nodup := by
  have hmm : (goodList.map JobOffer.get_hash).map hashToNat = goodLoc.map natHash := by
    simp only [goodList, List.map_map]
    exact List.map_congr_left (fun l _ => rfl)
  exact List.Nodup.of_map hashToNat (by rw [hmm]; exact goodNats_nodup)

theorem goodTriples_nodup : (goodList.map tripleOf).Nodup := by
  have hmm : (goodList.map tripleOf).map hashOfTriple = goodList.map JobOffer.get_hash := by
    rw [List.map_map]
    exact List.map_congr_left (fun j _ => rfl)
  exact List.Nodup.of_map hashOfTriple (by rw [hmm]; exact goodHashes_nodup)

theorem goodList_length : goodList.length = 1000 := by decide

theorem badList_length : badList.length = 1000 := by
  simp only [badList, List.length_cons, List.length_drop, goodList_length]

theorem goodTriple_company : ∀ t ∈ goodList.map tripleOf, t.1 = "Acme" := by
  intro t ht
  obtain ⟨j, hj, rfl⟩ := List.mem_map.mp ht
  obtain ⟨l, _, rfl⟩ := List.mem_map.mp hj
  rfl

theorem badTriples_nodup : (badList.map tripleOf).Nodup := by
  have hdrop : ((goodList.drop 2).map tripleOf) = (goodList.map tripleOf).drop 2 :=
    List.map_drop _ _ _
  simp only [badList, List.map_cons]
  rw [List.nodup_cons, List.nodup_cons]
  refine ⟨?_, ?_, ?_⟩
  · intro hmem
    rcases List.mem_cons.mp hmem with heq | hmem'
    · exact absurd heq (by decide)
    · rw [hdrop] at hmem'
      have hco := goodTriple_company _ ((List.drop_sublist 2 _).subset hmem')
      exact absurd hco (by decide)
  · intro hmem
    rw [hdrop] at hmem
    have hco := goodTriple_company _ ((List.drop_sublist 2 _).subset hmem)
    exact absurd hco (by decide)
  · rw [hdrop]
    exact (List.drop_sublist 2 _).nodup goodTriples_nodup

theorem bad_hash_eq : bad0.get_hash = bad1.get_hash := by decide

theorem badHashes_not_nodup : ¬ (badList.map JobOffer.get_hash).Nodup := by
  intro h
  simp only [badList, List.map_cons] at h
  exact (List.nodup_cons.mp h).1 (by rw [bad_hash_eq]; exact List.mem_cons_self _ _)

theorem containsFp_mk_map (l : List JobOffer) (h : String) :
    (JobRepository.mk (l.map (fun k => (k.get_hash, k)))).containsFp h
      = l.any (fun k => k.get_hash == h) := by
  show ((l.map (fun k => (k.get_hash, k))).any fun p => p.1 == h)
    = l.any fun k => k.get_hash == h
  induction l with
  | nil => rfl
  | cons j rest ih => simp only [List.map_cons, List.any_cons, ih]

theorem containsFp_mk_map_of_mem (l : List JobOffer) (j : JobOffer) (hj : j ∈ l) :
    (JobRepository.mk (l.map (fun k => (k.get_hash, k)))).containsFp j.get_hash = true := by
  rw [containsFp_mk_map, List.any_eq_true]
  exact ⟨j, hj, by simp⟩

theorem containsFp_mk_map_false (l : List JobOffer) (h : String)
    (hh : h ∉ l.map JobOffer.get_hash) :
    (JobRepository.mk (l.map (fun k => (k.get_hash, k)))).containsFp h = false := by
  rw [containsFp_mk_map, List.any_eq_false]
  intro k hk heq
  exact hh (eq_of_beq heq ▸ List.mem_map_of_mem JobOffer.get_hash hk)

theorem add_jobs_empty_batch (batch : List JobOffer)
    (hn : (batch.map JobOffer.get_hash).Nodup) :
    JobRepository.empty.add_jobs batch
      = (⟨batch.map (fun j => (j.get_hash, j))⟩, batch.length, batch.length) := by
  have h := add_jobs_all_new JobRepository.empty batch hn (fun j _ => rfl)
  simpa [JobRepository.empty, JobRepository.size] using h

theorem mk_map_size (l : List JobOffer) :
    (JobRepository.mk (l.map (fun k => (k.get_hash, k)))).size = l.length := by
  show (l.map _).length = l.length
  rw [List.length_map]

theorem add_jobs_take_drop (batch : List JobOffer) (k : Nat)
    (hn : (batch.map JobOffer.get_hash).Nodup) :
    ((JobRepository.mk ((batch.take k).map (fun j => (j.get_hash, j)))).add_jobs batch).1
      = ⟨batch.map (fun j => (j.get_hash, j))⟩ := by
  have hsplit : (JobRepository.mk ((batch.take k).map (fun j => (j.get_hash, j)))).add_jobs batch
      = (JobRepository.mk ((batch.take k).map (fun j => (j.get_hash, j)))).add_jobs
          (batch.take k ++ batch.drop k) := by rw [List.take_append_drop]
  rw [hsplit, add_jobs_append]
  have hpres := add_jobs_all_present
    (JobRepository.mk ((batch.take k).map (fun j => (j.get_hash, j)))) (batch.take k)
    (fun j hj => containsFp_mk_map_of_mem _ j hj)
  rw [hpres]
  dsimp only
  have hndrop : ((batch.drop k).map JobOffer.get_hash).Nodup := by
    rw [List.map_drop]
    exact (List.drop_sublist _ _).nodup hn
  have hms : batch.map JobOffer.get_hash
      = (batch.take k).map JobOffer.get_hash ++ (batch.drop k).map JobOffer.get_hash := by
    rw [List.map_take, List.map_drop, List.take_append_drop]
  have hdisj := (List.nodup_append.mp (hms ▸ hn)).2.2
  have hfreshd : ∀ j ∈ batch.drop k,
      (JobRepository.mk ((batch.take k).map (fun j => (j.get_hash, j)))).containsFp
        j.get_hash = false := by
    intro j hj
    refine containsFp_mk_map_false _ _ ?_
    intro hmem
    exact hdisj hmem (List.mem_map_of_mem _ hj)
  rw [add_jobs_all_new _ _ hndrop hfreshd]
  dsimp only
  congr 1
  rw [← List.map_append, List.take_append_drop]

def jB2 : JobOffer :=
  { title := "Frontend Intern", company_name := "Acme", location := "NYC",
    posted_date := some "2025-06-01", description := none, url := some "d" }

theorem add_jobs_skip_mid (r : JobRepository) (P : List JobOffer) (j2 : JobOffer)
    (l3 : List JobOffer) (hc : ((r.add_jobs P).1).containsFp j2.get_hash = true) :
    r.add_jobs (P ++ j2 :: l3) = r.add_jobs (P ++ l3) := by
  rw [add_jobs_append, add_jobs_append, add_jobs_cons_mem _ _ _ hc]

/-- C1: `addJobs` processes the input records in order; a record whose
fingerprint is already a key is skipped silently, otherwise the record is
appended unchanged under its fingerprint and counted; the call returns the
pair (newly inserted count, total size after the call); the empty input
returns `(0, currentTotalSize)`; and a second occurrence of an already seen
fingerprint inside the same batch is an uncounted no-op. -/
theorem addJobs_processes_in_order :
    (∀ r : JobRepository, r.add_jobs [] = (r, 0, r.size))
    ∧ (∀ (r : JobRepository) (j : JobOffer) (rest : List JobOffer),
        r.containsFp j.get_hash = true → r.add_jobs (j :: rest) = r.add_jobs rest)
    ∧ (∀ (r : JobRepository) (j : JobOffer) (rest : List JobOffer),
        r.containsFp j.get_hash = false →
          (r.insertFp j.get_hash j).storage = r.storage ++ [(j.get_hash, j)]
          ∧ r.add_jobs (j :: rest)
              = (((r.insertFp j.get_hash j).add_jobs rest).1,
                 ((r.insertFp j.get_hash j).add_jobs rest).2.1 + 1,
                 ((r.insertFp j.get_hash j).add_jobs rest).2.2))
    ∧ (∀ (r : JobRepository) (l : List JobOffer),
        (r.add_jobs l).2.2 = (r.add_jobs l).1.size
          ∧ (r.add_jobs l).1.size = r.size + (r.add_jobs l).2.1)
    ∧ (∀ (r : JobRepository) (l1 : List JobOffer) (j : JobOffer) (l2 : List JobOffer)
        (j2 : JobOffer) (l3 : List JobOffer), j2.get_hash = j.get_hash →
          r.add_jobs (l1 ++ j :: l2 ++ j2 :: l3) = r.add_jobs (l1 ++ j :: l2 ++ l3)) := by
  refine ⟨add_jobs_nil, add_jobs_cons_mem, ?_, ?_, ?_⟩
  · intro r j rest h
    exact ⟨rfl, add_jobs_cons_new r j rest h⟩
  · intro r l
    exact ⟨add_jobs_total_eq_size r l, add_jobs_size r l⟩
  · intro r l1 j l2 j2 l3 h
    have e1 : l1 ++ j :: l2 ++ j2 :: l3 = (l1 ++ j :: l2) ++ (j2 :: l3) := by simp
    have e2 : l1 ++ j :: l2 ++ l3 = (l1 ++ j :: l2) ++ l3 := by simp
    rw [e1, e2]
    refine add_jobs_skip_mid r (l1 ++ j :: l2) j2 l3 ?_
    rw [h]
    exact containsFp_of_mem _ _ j (by simp)

/-- C1 witness: the specification instantiated on concrete records. -/
theorem addJobs_processes_in_order_witness :
    JobRepository.empty.add_jobs [] = (JobRepository.empty, 0, JobRepository.empty.size)
    ∧ (JobRepository.empty.insertFp jA.get_hash jA).add_jobs [jA]
        = (JobRepository.empty.insertFp jA.get_hash jA).add_jobs []
    ∧ JobRepository.empty.add_jobs ([] ++ jA :: [] ++ jA2 :: [])
        = JobRepository.empty.add_jobs ([] ++ jA :: [] ++ []) := by
  refine ⟨addJobs_processes_in_order.1 _, ?_, ?_⟩
  · exact addJobs_processes_in_order.2.1 _ jA [] (by decide)
  · exact addJobs_processes_in_order.2.2.2.2 _ [] jA [] jA2 [] (by decide)

/-- C2: the repository invariant — each stored pair is keyed by its record's
fingerprint and keys are pairwise distinct — holds of the empty repository and
is preserved by every `addJobs` call; a record already stored under a
fingerprint is never overwritten (first-seen wins); and `getAllJobs` never
returns two records sharing a fingerprint. -/
theorem repository_invariant :
    InvRepo JobRepository.empty
    ∧ (∀ (r : JobRepository) (l : List JobOffer), InvRepo r → InvRepo (r.add_jobs l).1)
    ∧ (∀ (r : JobRepository) (l : List JobOffer) (h : String) (j : JobOffer),
        lookupFp h r.storage = some j → lookupFp h ((r.add_jobs l).1.storage) = some j)
    ∧ (∀ r : JobRepository, InvRepo r → ((r.get_all_jobs).map JobOffer.get_hash).Nodup) := by
  refine ⟨invRepo_empty, invRepo_add_jobs, lookupFp_preserved, ?_⟩
  intro r hi
  rw [get_all_jobs_hashes_eq_keys r hi]
  exact hi.2

/-- C2 witness: the invariant instantiated on concrete ingestions. -/
theorem repository_invariant_witness :
    InvRepo (JobRepository.empty.add_jobs [jA, jB]).1
    ∧ lookupFp jA.get_hash
        (((JobRepository.mk [(jA.get_hash, jA)]).add_jobs [jA2]).1.storage) = some jA
    ∧ (((JobRepository.empty.add_jobs [jA, jB]).1.get_all_jobs).map
        JobOffer.get_hash).Nodup := by
  refine ⟨?_, ?_, ?_⟩
  · exact repository_invariant.2.1 _ _ repository_invariant.1
  · exact repository_invariant.2.2.1 _ [jA2] jA.get_hash jA (by simp [lookupFp])
  · exact repository_invariant.2.2.2 _ (repository_invariant.2.1 _ _ repository_invariant.1)

/-- C3: the fingerprint is the MD5 digest of the UTF-8 concatenation of
company name, title and location in that exact order with no normalization;
no other field participates; the digest is a fixed 32-hex-character,
128-bit value; and concrete case and whitespace variations of an identity
field change the fingerprint. -/
theorem fingerprint_definition :
    (∀ j : JobOffer, j.get_hash = md5hex (strBytes (j.company_name ++ j.title ++ j.location)))
    ∧ (∀ j j2 : JobOffer, j.company_name = j2.company_name → j.title = j2.title →
        j.location = j2.location → j.get_hash = j2.get_hash)
    ∧ (∀ j : JobOffer, (j.get_hash).length = 32
        ∧ bytesToNatLE (md5Bytes (strBytes (j.company_name ++ j.title ++ j.location)))
            < 340282366920938463463374607431768211456)
    ∧ jA.get_hash ≠ jCase2.get_hash
    ∧ jA.get_hash ≠ jWs1.get_hash := by
  refine ⟨fun j => rfl, ?_, ?_, by decide, by decide⟩
  · intro j j2 h1 h2 h3
    simp [JobOffer.get_hash, h1, h2, h3]
  · intro j
    exact ⟨md5hex_length _, digest_lt_128bit _⟩

/-- C3 witness: two records agreeing on the identity triple but differing in
date and URL share a fingerprint. -/
theorem fingerprint_definition_witness : jB.get_hash = jB2.get_hash :=
  fingerprint_definition.2.1 jB jB2 rfl rfl rfl

/-- C4 counterexample: it is not the case that every list of 1000 records with
pairwise distinct identity triples has pairwise distinct fingerprints —
`badList` contains two records with different triples but equal concatenated
identity strings, hence equal fingerprints. -/
theorem distinct_triples_collision_cex :
    ¬ (∀ rs : List JobOffer, rs.length = 1000 → (rs.map tripleOf).Nodup →
        (rs.map JobOffer.get_hash).Nodup) := by
  intro H
  exact badHashes_not_nodup (H badList badList_length badTriples_nodup)

/-- C4 amended: a generated set of 1000 records with pairwise distinct
identity triples whose 1000 fingerprints are pairwise distinct does exist
(`goodList`); distinctness of triples alone does not force it. -/
theorem generated_set_distinct_fingerprints :
    goodList.length = 1000 ∧ (goodList.map tripleOf).Nodup
      ∧ (goodList.map JobOffer.get_hash).Nodup :=
  ⟨goodList_length, goodTriples_nodup, goodHashes_nodup⟩

/-- C5: ingesting a batch of N records with pairwise distinct fingerprints
into the empty repository yields newCount = N and totalCount = N; re-ingesting
the same batch yields newCount = 0, totalCount = N, and leaves the state
unchanged; and re-submitting the batch after any partially committed prefix
re-derives the same final state. -/
theorem ingestion_idempotent (batch : List JobOffer)
    (hn : (batch.map JobOffer.get_hash).Nodup) :
    (JobRepository.empty.add_jobs batch).2.1 = batch.length
    ∧ (JobRepository.empty.add_jobs batch).2.2 = batch.length
    ∧ ((JobRepository.empty.add_jobs batch).1.add_jobs batch).2.1 = 0
    ∧ ((JobRepository.empty.add_jobs batch).1.add_jobs batch).2.2 = batch.length
    ∧ ((JobRepository.empty.add_jobs batch).1.add_jobs batch).1
        = (JobRepository.empty.add_jobs batch).1
    ∧ ∀ k : Nat,
        ((JobRepository.empty.add_jobs (batch.take k)).1.add_jobs batch).1
          = (JobRepository.empty.add_jobs batch).1 := by
  have h1 := add_jobs_empty_batch batch hn
  have h2 : (JobRepository.mk (batch.map (fun j => (j.get_hash, j)))).add_jobs batch
      = (⟨batch.map (fun j => (j.get_hash, j))⟩, 0,
         (JobRepository.mk (batch.map (fun j => (j.get_hash, j)))).size) :=
    add_jobs_all_present _ _ (fun j hj => containsFp_mk_map_of_mem batch j hj)
  refine ⟨?_, ?_, ?_, ?_, ?_, ?_⟩
  · rw [h1]
  · rw [h1]
  · rw [h1]; dsimp only; rw [h2]
  · rw [h1]; dsimp only; rw [h2]; dsimp only; exact mk_map_size batch
  · rw [h1]; dsimp only; rw [h2]
  · intro k
    have hnk : ((batch.take k).map JobOffer.get_hash).Nodup := by
      rw [List.map_take]
      exact (List.take_sublist _ _).nodup hn
    rw [add_jobs_empty_batch (batch.take k) hnk, h1]
    dsimp only
    exact add_jobs_take_drop batch k hn

/-- C5 witness: idempotent ingestion on a concrete two-record batch with
distinct fingerprints. -/
theorem ingestion_idempotent_witness :
    (([jA, jB]).map JobOffer.get_hash).Nodup
    ∧ (JobRepository.empty.add_jobs [jA, jB]).2.1 = 2
    ∧ ((JobRepository.empty.add_jobs ([jA, jB].take 1)).1.add_jobs [jA, jB]).1
        = (JobRepository.empty.add_jobs [jA, jB]).1 := by
  have hn : (([jA, jB]).map JobOffer.get_hash).Nodup := by decide
  exact ⟨hn, (ingestion_idempotent [jA, jB] hn).1, (ingestion_idempotent [jA, jB] hn).2.2.2.2.2 1⟩

/-- C6 counterexample: an absent identity field is not treated as the empty
string — interpolating `None` for the company yields a different fingerprint
than the empty string would. -/
theorem absent_field_not_empty_cex :
    get_hash_opt none (some "Backend Intern") (some "NYC")
      ≠ get_hash_opt (some "") (some "Backend Intern") (some "NYC") := by decide

/-- C6 amended: fingerprint computation is total — it always returns a
32-character hex digest, also when identity fields are absent — but an absent
field is interpolated as the Python string "None", not as the empty string. -/
theorem absent_field_interpolation :
    (∀ co ti lo : Option String, (get_hash_opt co ti lo).length = 32
      ∧ (get_hash_opt co ti lo).data.all (fun c => decide (c ∈ hexChars)) = true)
    ∧ (∀ ti lo : Option String, get_hash_opt none ti lo = get_hash_opt (some "None") ti lo)
    ∧ (∀ co lo : Option String, get_hash_opt co none lo = get_hash_opt co (some "None") lo)
    ∧ (∀ co ti : Option String, get_hash_opt co ti none = get_hash_opt co ti (some "None")) := by
  refine ⟨?_, fun ti lo => rfl, fun co lo => rfl, fun co ti => rfl⟩
  intro co ti lo
  exact ⟨md5hex_length _, md5hex_all_hex _⟩

/-- C7: the fingerprint is deterministic — any two records carrying the same
identity triple receive identical digests, whatever their other fields. -/
theorem fingerprint_deterministic (c t l : String) (j j2 : JobOffer)
    (h1 : j.company_name = c) (h2 : j.title = t) (h3 : j.location = l)
    (h4 : j2.company_name = c) (h5 : j2.title = t) (h6 : j2.location = l) :
    j.get_hash = j2.get_hash := by
  simp [JobOffer.get_hash, h1, h2, h3, h4, h5, h6]

/-- C7 witness: determinism instantiated on two concrete records with the
same triple. -/
theorem fingerprint_deterministic_witness : jA.get_hash = jA2.get_hash :=
  fingerprint_deterministic "Acme" "Backend Intern" "NYC" jA jA2 rfl rfl rfl rfl rfl rfl

/-- C8 counterexample: the renderer does not emit a document for every list
of job records — on a two-record list in which one posted date is absent,
`sorted()` compares `None` against a string, raises TypeError, and nothing
is emitted. -/
theorem renderer_raises_cex :
    export_to_markdown [jA, jNoDate] = none
    ∧ ¬ (∀ jobs : List JobOffer, (export_to_markdown jobs).isSome = true) := by
  have h : export_to_markdown [jA, jNoDate] = none := by decide
  refine ⟨h, ?_⟩
  intro H
  have hs := H [jA, jNoDate]
  rw [h] at hs
  exact absurd hs (by simp)

/-- C8 (amended): when every posted date is present — or the list has at most
one record, so `sorted()` runs no comparison — the renderer emits the
document: the heading followed by one section per job, the jobs being a
stable descending-by-posted-date permutation of the input, each section
containing the company name, title, location, the interpolated posted date
and the apply link; on a list of two or more records with an absent posted
date, the sort raises TypeError and no document is emitted. -/
theorem renderer_spec (jobs : List JobOffer) :
    ((∀ j ∈ jobs, j.posted_date.isSome = true) →
      export_to_markdown jobs
        = some (mdHeader jobs.length ++ concatAll ((pySortDesc jobs).map mdSection)))
    ∧ (jobs.length ≤ 1 →
      export_to_markdown jobs
        = some (mdHeader jobs.length ++ concatAll ((pySortDesc jobs).map mdSection)))
    ∧ ((∃ j ∈ jobs, j.posted_date = none) → 2 ≤ jobs.length →
        export_to_markdown jobs = none)
    ∧ (pySortDesc jobs).Perm jobs
    ∧ List.Pairwise (fun a b => b.posted_date.getD "" ≤ a.posted_date.getD "")
        (pySortDesc jobs)
    ∧ (∀ d : String, pyFStr (some d) = d)
    ∧ ∀ j : JobOffer,
        List.IsInfix j.company_name.data (mdSection j).data
        ∧ List.IsInfix j.title.data (mdSection j).data
        ∧ List.IsInfix j.location.data (mdSection j).data
        ∧ List.IsInfix (pyFStr j.posted_date).data (mdSection j).data
        ∧ List.IsInfix ("\n- [Apply here](" ++ pyFStr j.url ++ ")\n\n").data
            (mdSection j).data := by
  refine ⟨?_, ?_, ?_, pySortDesc_perm jobs, pySortDesc_sorted jobs, fun d => rfl, ?_⟩
  · intro h
    have hall : jobs.all (fun j => j.posted_date.isSome) = true := List.all_eq_true.mpr h
    simp only [export_to_markdown, hall, Bool.or_true, if_true]
    exact congrArg some (foldl_append_sections (pySortDesc jobs) (mdHeader jobs.length))
  · intro h
    have h1 : decide (jobs.length ≤ 1) = true := by simpa using h
    simp only [export_to_markdown, h1, Bool.true_or, if_true]
    exact congrArg some (foldl_append_sections (pySortDesc jobs) (mdHeader jobs.length))
  · rintro ⟨j, hj, hnone⟩ h2
    have h1 : decide (jobs.length ≤ 1) = false := by
      simp only [decide_eq_false_iff_not]
      omega
    have hall : jobs.all (fun j => j.posted_date.isSome) = false := by
      rw [Bool.eq_false_iff]
      intro ht
      have hs := List.all_eq_true.mp ht j hj
      rw [hnone] at hs
      exact absurd hs (by simp)
    simp [export_to_markdown, h1, hall]
  · intro j
    refine ⟨?_, ?_, ?_, ?_, ?_⟩
    · exact ⟨"### ".data,
        ("\n- **Position:** " ++ j.title ++ "\n- **Location:** " ++ j.location
          ++ "\n- **Posted on:** " ++ pyFStr j.posted_date ++ "\n- [Apply here]("
          ++ pyFStr j.url ++ ")\n\n").data,
        by simp [mdSection, String.data_append, List.append_assoc]⟩
    · exact ⟨("### " ++ j.company_name ++ "\n- **Position:** ").data,
        ("\n- **Location:** " ++ j.location ++ "\n- **Posted on:** "
          ++ pyFStr j.posted_date ++ "\n- [Apply here](" ++ pyFStr j.url
          ++ ")\n\n").data,
        by simp [mdSection, String.data_append, List.append_assoc]⟩
    · exact ⟨("### " ++ j.company_name ++ "\n- **Position:** " ++ j.title
          ++ "\n- **Location:** ").data,
        ("\n- **Posted on:** " ++ pyFStr j.posted_date ++ "\n- [Apply here]("
          ++ pyFStr j.url ++ ")\n\n").data,
        by simp [mdSection, String.data_append, List.append_assoc]⟩
    · exact ⟨("### " ++ j.company_name ++ "\n- **Position:** " ++ j.title
          ++ "\n- **Location:** " ++ j.location ++ "\n- **Posted on:** ").data,
        ("\n- [Apply here](" ++ pyFStr j.url ++ ")\n\n").data,
        by simp [mdSection, String.data_append, List.append_assoc]⟩
    · exact ⟨("### " ++ j.company_name ++ "\n- **Position:** " ++ j.title
          ++ "\n- **Location:** " ++ j.location ++ "\n- **Posted on:** "
          ++ pyFStr j.posted_date).data,
        ([] : List Char),
        by simp [mdSection, String.data_append, List.append_assoc]⟩

/-- C8 witness: the amended renderer specification on a concrete two-record
list with both posted dates present, and the TypeError branch on a concrete
list with an absent posted date. -/
theorem renderer_spec_witness :
    (∀ j ∈ [jA, jB], j.posted_date.isSome = true)
    ∧ export_to_markdown [jA, jB]
        = some (mdHeader 2 ++ concatAll ((pySortDesc [jA, jB]).map mdSection))
    ∧ (∃ j ∈ [jA, jNoDate], j.posted_date = none)
    ∧ export_to_markdown [jA, jNoDate] = none := by
  have h1 : ∀ j ∈ [jA, jB], j.posted_date.isSome = true := by decide
  have h3 : ∃ j ∈ [jA, jNoDate], j.posted_date = none := ⟨jNoDate, by simp, rfl⟩
  exact ⟨h1, (renderer_spec [jA, jB]).1 h1, h3,
    (renderer_spec [jA, jNoDate]).2.2.1 h3 (by simp)⟩

/-- C9: for every record the fingerprint is a string of exactly 32 characters,
each a lowercase hexadecimal digit. -/
theorem get_hash_hex_format (j : JobOffer) :
    (j.get_hash).length = 32
    ∧ (j.get_hash).data.all (fun c => decide (c ∈ hexChars)) = true :=
  ⟨md5hex_length _, md5hex_all_hex _⟩

/-- C10: `to()` returns the insertion-ordered mapping whose keys are exactly
the six field names, each bound to that record's field value unchanged. -/
theorem to_dict_spec (j : JobOffer) :
    j.to.map Prod.fst
        = ["title", "company_name", "location", "posted_date", "description", "url"]
    ∧ j.to.length = 6
    ∧ j.to.lookup "title" = some (PyValue.vStr j.title)
    ∧ j.to.lookup "company_name" = some (PyValue.vStr j.company_name)
    ∧ j.to.lookup "location" = some (PyValue.vStr j.location)
    ∧ j.to.lookup "posted_date" = some (PyValue.vOpt j.posted_date)
    ∧ j.to.lookup "description" = some (PyValue.vOpt j.description)
    ∧ j.to.lookup "url" = some (PyValue.vOpt j.url) := by
  refine ⟨rfl, rfl, ?_, ?_, ?_, ?_, ?_, ?_⟩ <;> rfl
